import Mathlib

/-!
Verification development for the summarization orchestration engine of the
`comp_aplicada_final` repository.

The JavaScript services are shallowly embedded as executable Lean functions:

* `pdfService.js` text utilities (`cleanText`, `estimateTokens`) become pure
  functions over `String` / `List Char`; JavaScript string lengths are modelled
  as character counts, and JavaScript `trim` as removal of the standard
  whitespace characters.
* `langchainService.js` strategy functions (`generateSingleSummary`,
  `generateMapReduceSummary`, `generateMultipleSummary`,
  `generateHierarchicalSummary`, `testConnection`) are embedded over an
  explicit environment `Env` containing the configuration flag
  (`isConfigured`), a deterministic Model Invoker oracle
  (`invoke : prompt → maxTokens → Except String String`, where `Except.error`
  models a thrown upstream error) and the text splitter of the external
  `RecursiveCharacterTextSplitter` library.  Each strategy function returns
  its outcome (`Except String SummaryResult`, errors modelling thrown
  exceptions) paired with the ordered list of Model Invoker calls it made.
  Wall-clock fields (`processingTime`) are not modelled.
* the HTTP controller `createSingleSummary` of `summaryController.js` is
  embedded as a function from the record-store contents to the response
  status plus the new record-store contents.
-/

namespace CompApp

/-- `Math.ceil (n / 4)` on natural numbers. -/
def ceilDiv4 (n : Nat) : Nat := (n + 3) / 4

/-- The whitespace characters removed by JavaScript `String.prototype.trim`
(space, tab, line feed, carriage return, vertical tab, form feed). -/
def isJsWs (c : Char) : Bool :=
  c = ' ' || c = '\t' || c = '\n' || c = '\r' || c = '\x0b' || c = '\x0c'

/-- `trim` on character lists: drop whitespace from both ends. -/
def jsTrimList (l : List Char) : List Char :=
  (((l.dropWhile isJsWs).reverse.dropWhile isJsWs)).reverse

/-- JavaScript `s.trim()`. -/
def jsTrim (s : String) : String := String.mk (jsTrimList s.data)

/-- JavaScript `s.substring(0, n)`: the first `min n (length s)` characters. -/
def jsSubstringTo (s : String) (n : Nat) : String := String.mk (s.data.take n)

/-- Is the character a space or a tab (the class `[ \t]`)? -/
def isSpaceTab (c : Char) : Bool := c = ' ' || c = '\t'

/-- `text.replace(/[ \t]+/g, ' ')`: every maximal run of spaces and tabs
becomes a single space (emitted at the end of the run, which yields the same
list as emitting it at the start). -/
def collapseSpaceTab : List Char → List Char
  | [] => []
  | [c] => if isSpaceTab c then [' '] else [c]
  | c :: d :: cs =>
    if isSpaceTab c then
      if isSpaceTab d then collapseSpaceTab (d :: cs)
      else ' ' :: collapseSpaceTab (d :: cs)
    else c :: collapseSpaceTab (d :: cs)

/-- Helper for `squeezeNewlines`: `n` counts the consecutive newlines already
emitted for the current run; once two are emitted the rest are dropped. -/
def squeezeAux : Nat → List Char → List Char
  | _, [] => []
  | n, c :: cs =>
    if c = '\n' then
      if 2 ≤ n then squeezeAux n cs
      else '\n' :: squeezeAux (n + 1) cs
    else c :: squeezeAux 0 cs

/-- `text.replace(/\n{3,}/g, '\n\n')`: every maximal run of `k ≥ 3` newlines
becomes exactly two newlines (runs of one or two are unchanged, so each run of
`k` newlines becomes `min k 2`). -/
def squeezeNewlines (l : List Char) : List Char := squeezeAux 0 l

/-- JavaScript `text.split('\n')` on character lists (always non-empty;
splitting the empty string yields one empty part). -/
def splitNl : List Char → List (List Char)
  | [] => [[]]
  | c :: cs =>
    match splitNl cs with
    | [] => [[c]]
    | l :: ls => if c = '\n' then [] :: l :: ls else (c :: l) :: ls

/-- JavaScript `parts.join('\n')` on character lists. -/
def joinNl : List (List Char) → List Char
  | [] => []
  | [l] => l
  | l :: ls => l ++ '\n' :: joinNl ls

/-- The `cleanText` pipeline of `pdfService.js` on character lists: collapse
space/tab runs, squeeze newline runs of three or more, trim every line, and
trim the final result. -/
def cleanTextList (l : List Char) : List Char :=
  jsTrimList (joinNl ((splitNl (squeezeNewlines (collapseSpaceTab l))).map jsTrimList))

/-- `cleanText` of `pdfService.js`; a null/empty input yields the empty
string (`if (!text) return ''`). -/
def cleanText (text : String) : String :=
  if text = "" then "" else String.mk (cleanTextList text.data)

/-- `estimateTokens` of `pdfService.js`: `0` for a null/empty input, otherwise
`Math.ceil(text.length / 4)`. -/
def estimateTokens (text : String) : Nat :=
  if text = "" then 0 else ceilDiv4 text.length

/-- A named input document, as passed to `generateMultipleSummary`. -/
structure NamedDoc where
  name : String
  text : String
deriving DecidableEq, Repr

/-- An intermediate per-document summary of the hierarchical strategy. -/
structure IndividualSummary where
  name : String
  summary : String
deriving DecidableEq, Repr

/-- The record returned by every strategy function of `langchainService.js`.
The wall-clock `processingTime` field is not modelled. -/
structure SummaryResult where
  summary : String
  tokensUsed : Nat
  model : String
  method : String
  chunks : Option Nat := none
  documentsCount : Option Nat := none
deriving DecidableEq, Repr

/-- One Model Invoker call: the fully substituted prompt text and the
`maxTokens` output cap the model instance was created with. -/
structure ModelCall where
  prompt : String
  maxTokens : Nat
deriving DecidableEq, Repr

/-- The options destructured by the strategy functions (temperature does not
influence any modelled observable and is omitted). -/
structure SumOptions where
  model : String
  maxTokens : Nat
deriving DecidableEq, Repr

/-- The ambient environment of `langchainService.js`: the `isConfigured`
flag and default model of `config/langchain.js`, a deterministic Model
Invoker oracle (`Except.error` models a thrown upstream error), and the
`RecursiveCharacterTextSplitter.splitText` of the external splitter library,
parameterized by `chunkSize` and `chunkOverlap`. -/
structure Env where
  configured : Bool
  defaultModel : String
  invoke : String → Nat → Except String String
  splitText : Nat → Nat → String → List String

/-- Is an `Except` outcome a success? -/
def isOkE {ε α : Type} : Except ε α → Bool
  | Except.ok _ => true
  | Except.error _ => false

/-- `SUMMARY_PROMPTS.single.system`. -/
def singleSystem : String :=
  "Você é um especialista em análise e síntese de documentos. \nSua tarefa é criar resumos claros, concisos e abrangentes.\n\nDiretrizes:\n- Escreva o resumo em português\n- Capture os pontos principais e informações-chave\n- Mantenha a estrutura lógica do conteúdo original\n- Seja objetivo e preciso\n- Mantenha o resumo informativo mas conciso"

/-- `SUMMARY_PROMPTS.single.human` up to its text slot. -/
def singleHumanPre : String :=
  "Por favor, forneça um resumo abrangente do seguinte documento:\n\n"

/-- `SUMMARY_PROMPTS.single.human` after its text slot. -/
def singleHumanPost : String := "\n\nRESUMO:"

/-- The fully substituted single-document prompt:
`fromTemplate(single.system + '\n\n' + single.human)` applied to the text. -/
def singlePromptOf (text : String) : String :=
  singleSystem ++ "\n\n" ++ singleHumanPre ++ text ++ singleHumanPost

/-- `SUMMARY_PROMPTS.multiple.system`. -/
def multipleSystem : String :=
  "Você é um analista de documentos especializado em síntese integrada.\nSua tarefa é analisar múltiplos documentos e criar um resumo integrado.\n\nDiretrizes:\n- Escreva o resumo em português\n- Identifique temas comuns e conexões entre os documentos\n- Destaque diferenças ou contradições importantes\n- Sintetize as informações em uma narrativa coerente\n- Referencie qual documento contém cada informação quando relevante"

/-- The fully substituted multi-document prompt:
`fromTemplate(multiple.system + '\n\n' + multiple.human)` applied to the
document count and the combined labeled text. -/
def multiplePromptOf (count : Nat) (docsText : String) : String :=
  multipleSystem ++ "\n\n" ++ "Analise os seguintes " ++ toString count ++
    " documentos e forneça um resumo integrado que sintetize as informações principais:\n\n" ++
    docsText ++ "\n\nRESUMO INTEGRADO:"

/-- `SUMMARY_PROMPTS.mapPrompt` applied to one chunk. -/
def mapPromptOf (chunk : String) : String :=
  "Escreva um resumo conciso do seguinte trecho:\n\n\"" ++ chunk ++ "\"\n\nRESUMO CONCISO:"

/-- `SUMMARY_PROMPTS.combinePrompt` applied to the joined chunk summaries. -/
def reduceCombineOf (text : String) : String :=
  "Os seguintes são resumos de diferentes partes de um documento:\n\n" ++ text ++
    "\n\nCombine esses resumos em um resumo final consolidado e coerente em português.\n\nRESUMO FINAL:"

/-- The hierarchical combine prompt, a template literal baking in the number
of documents with a `summaries` slot. -/
def combinePromptOf (count : Nat) (summaries : String) : String :=
  "Você recebeu resumos de " ++ toString count ++
    " documentos diferentes.\nCrie um resumo integrado final que:\n- Sintetize as informações principais de todos os documentos\n- Identifique temas e pontos em comum\n- Destaque diferenças importantes\n- Seja coerente e bem estruturado\n\nResumos dos documentos:\n\n" ++
    summaries ++ "\n\nRESUMO INTEGRADO FINAL:"

/-- The combined labeled text of `generateMultipleSummary`: each document
prefixed with `--- Documento i: name ---`, joined by blank lines. -/
def documentsText (docs : List NamedDoc) : String :=
  String.intercalate "\n\n"
    (docs.enum.map fun p =>
      "--- Documento " ++ toString (p.1 + 1) ++ ": " ++ p.2.name ++ " ---\n" ++ p.2.text)

/-- The combined labeled text of `generateHierarchicalSummary`: each
individual summary prefixed with `--- Resumo do Documento i: name ---`,
joined by blank lines. -/
def combinedSummariesText (summaries : List IndividualSummary) : String :=
  String.intercalate "\n\n"
    (summaries.enum.map fun p =>
      "--- Resumo do Documento " ++ toString (p.1 + 1) ++ ": " ++ p.2.name ++ " ---\n" ++ p.2.summary)

/-- Map step over the chunks: one Model Invoker call per chunk, in order,
aborting at the first failure.  The calls made so far are recorded even when
a later call fails. -/
def mapStep (env : Env) (opts : SumOptions) : List String → Except String (List String) × List ModelCall
  | [] => (Except.ok [], [])
  | chunk :: rest =>
    match env.invoke (mapPromptOf chunk) opts.maxTokens with
    | Except.error e => (Except.error e, [⟨mapPromptOf chunk, opts.maxTokens⟩])
    | Except.ok s =>
      match mapStep env opts rest with
      | (Except.error e, log) => (Except.error e, ⟨mapPromptOf chunk, opts.maxTokens⟩ :: log)
      | (Except.ok ss, log) => (Except.ok (s :: ss), ⟨mapPromptOf chunk, opts.maxTokens⟩ :: log)

/-- Modelled from the spec: the body of the external library chain
`loadSummarizationChain(llm, { type: 'map_reduce' })` invoked on the chunk
documents is not part of this repository; following spec §4.6 it makes one
map call per chunk (in ascending chunk order) and then exactly one reduce
call on the concatenated chunk summaries, aborting as a whole if any single
call fails.  The repository's map/combine prompt templates stand in for the
library's templates. -/
def mapReduceChainInvoke (env : Env) (opts : SumOptions) (chunks : List String) :
    Except String String × List ModelCall :=
  match mapStep env opts chunks with
  | (Except.error e, log) => (Except.error e, log)
  | (Except.ok summaries, log) =>
    match env.invoke (reduceCombineOf (String.intercalate "\n\n" summaries)) opts.maxTokens with
    | Except.error e =>
      (Except.error e,
       log ++ [⟨reduceCombineOf (String.intercalate "\n\n" summaries), opts.maxTokens⟩])
    | Except.ok final =>
      (Except.ok final,
       log ++ [⟨reduceCombineOf (String.intercalate "\n\n" summaries), opts.maxTokens⟩])

/-- `generateMapReduceSummary` of `langchainService.js`: split the text with
chunk size 4000 and overlap 200, run the map-reduce chain, and wrap the final
text in a `map_reduce` result record. -/
def generateMapReduceSummary (env : Env) (text : String) (opts : SumOptions) :
    Except String SummaryResult × List ModelCall :=
  match mapReduceChainInvoke env opts (env.splitText 4000 200 text) with
  | (Except.error e, log) => (Except.error e, log)
  | (Except.ok finalText, log) =>
    (Except.ok
      { summary := jsTrim finalText,
        tokensUsed := ceilDiv4 text.length + ceilDiv4 finalText.length,
        model := opts.model,
        method := "map_reduce",
        chunks := some (env.splitText 4000 200 text).length }, log)

/-- `generateSingleSummary` of `langchainService.js`: fail when the API key
is unconfigured, route by the inline token estimate `Math.ceil(length / 4)`
(over 12000 → map-reduce, wrapped by the surrounding `catch`), otherwise one
single-document chain invocation. -/
def generateSingleSummary (env : Env) (text : String) (opts : SumOptions) :
    Except String SummaryResult × List ModelCall :=
  if env.configured = false then (Except.error "OpenAI API key is not configured", [])
  else if 12000 < ceilDiv4 text.length then
    match generateMapReduceSummary env text opts with
    | (Except.error e, log) => (Except.error ("Failed to generate summary: " ++ e), log)
    | (Except.ok r, log) => (Except.ok r, log)
  else
    match env.invoke (singlePromptOf text) opts.maxTokens with
    | Except.error e =>
      (Except.error ("Failed to generate summary: " ++ e), [⟨singlePromptOf text, opts.maxTokens⟩])
    | Except.ok summary =>
      (Except.ok
        { summary := jsTrim summary,
          tokensUsed := ceilDiv4 text.length + ceilDiv4 summary.length,
          model := opts.model,
          method := "stuff" }, [⟨singlePromptOf text, opts.maxTokens⟩])

/-- The sequential `for (const doc of documents)` loop of
`generateHierarchicalSummary`: summarize each document in the given order via
`generateSingleSummary` with the output cap reduced to 1000, aborting at the
first failure. -/
def summarizeEach (env : Env) (opts : SumOptions) :
    List NamedDoc → Except String (List IndividualSummary) × List ModelCall
  | [] => (Except.ok [], [])
  | d :: ds =>
    match generateSingleSummary env d.text { model := opts.model, maxTokens := 1000 } with
    | (Except.error e, log) => (Except.error e, log)
    | (Except.ok r, log) =>
      match summarizeEach env opts ds with
      | (Except.error e, log2) => (Except.error e, log ++ log2)
      | (Except.ok rest, log2) => (Except.ok (⟨d.name, r.summary⟩ :: rest), log ++ log2)

/-- `generateHierarchicalSummary` of `langchainService.js`: individual
summaries in caller order, then one combine invocation over the labeled
concatenation. -/
def generateHierarchicalSummary (env : Env) (docs : List NamedDoc) (opts : SumOptions) :
    Except String SummaryResult × List ModelCall :=
  match summarizeEach env opts docs with
  | (Except.error e, log) => (Except.error e, log)
  | (Except.ok indiv, log) =>
    match env.invoke (combinePromptOf docs.length (combinedSummariesText indiv)) opts.maxTokens with
    | Except.error e =>
      (Except.error e,
       log ++ [⟨combinePromptOf docs.length (combinedSummariesText indiv), opts.maxTokens⟩])
    | Except.ok finalSummary =>
      (Except.ok
        { summary := jsTrim finalSummary,
          tokensUsed := ceilDiv4 (combinedSummariesText indiv).length + ceilDiv4 finalSummary.length,
          model := opts.model,
          method := "hierarchical",
          documentsCount := some docs.length },
       log ++ [⟨combinePromptOf docs.length (combinedSummariesText indiv), opts.maxTokens⟩])

/-- `generateMultipleSummary` of `langchainService.js`: fail when the API key
is unconfigured, fail on a null/empty document list, route by the token
estimate of the combined labeled text (over 12000 → hierarchical), otherwise
one multi-document chain invocation; errors raised inside the `try` block are
wrapped by the surrounding `catch`. -/
def generateMultipleSummary (env : Env) (docs : List NamedDoc) (opts : SumOptions) :
    Except String SummaryResult × List ModelCall :=
  if env.configured = false then (Except.error "OpenAI API key is not configured", [])
  else if docs.length = 0 then (Except.error "No documents provided", [])
  else if 12000 < ceilDiv4 (documentsText docs).length then
    match generateHierarchicalSummary env docs opts with
    | (Except.error e, log) => (Except.error ("Failed to generate integrated summary: " ++ e), log)
    | (Except.ok r, log) => (Except.ok r, log)
  else
    match env.invoke (multiplePromptOf docs.length (documentsText docs)) opts.maxTokens with
    | Except.error e =>
      (Except.error ("Failed to generate integrated summary: " ++ e),
       [⟨multiplePromptOf docs.length (documentsText docs), opts.maxTokens⟩])
    | Except.ok summary =>
      (Except.ok
        { summary := jsTrim summary,
          tokensUsed := ceilDiv4 (documentsText docs).length + ceilDiv4 summary.length,
          model := opts.model,
          method := "stuff",
          documentsCount := some docs.length },
       [⟨multiplePromptOf docs.length (documentsText docs), opts.maxTokens⟩])

/-- The record returned by `testConnection`. -/
structure ConnectionTestResult where
  success : Bool
  model : Option String := none
  response : Option String := none
  error : Option String := none
deriving DecidableEq, Repr

/-- `testConnection` of `langchainService.js`: unconfigured → failure record
without any call; otherwise one `llm.invoke('Hello')` with `maxTokens: 10`,
its error caught into a failure record, its success truncated to a 50
character preview.  Total by construction — it returns a record, never an
exception. -/
def testConnection (env : Env) : ConnectionTestResult × List ModelCall :=
  if env.configured = false then
    ({ success := false, error := some "API key not configured" }, [])
  else
    match env.invoke "Hello" 10 with
    | Except.ok content =>
      ({ success := true, model := some env.defaultModel,
         response := some (jsSubstringTo content 50) }, [⟨"Hello", 10⟩])
    | Except.error e => ({ success := false, error := some e }, [⟨"Hello", 10⟩])

/-- A document record of the JSON record store, restricted to the fields the
summary controller reads. -/
structure DocRecord where
  userId : String
  status : String
  extractedText : String
  originalName : String
deriving DecidableEq, Repr

/-- A persisted summary record, restricted to the fields written from the
strategy result (identifier, title and timestamps are generated
nondeterministically and are not modelled). -/
structure PersistedSummary where
  content : String
  type : String
  model : String
  tokensUsed : Nat
  method : String
deriving DecidableEq, Repr

/-- The `createSingleSummary` controller of `summaryController.js`: validate,
run `generateSingleSummary` (the controller passes only `model`, so the
service default `maxTokens = 2000` applies), and only on success append a
record via `db.createSummary`; a thrown error is caught into a 500 response
with the store untouched.  Returns the HTTP status and the new store
contents. -/
def createSingleSummaryController (env : Env) (userId : String)
    (documentId : Option String) (reqModel : Option String)
    (findDoc : String → Option DocRecord) (store : List PersistedSummary) :
    Nat × List PersistedSummary :=
  match documentId with
  | none => (400, store)
  | some docId =>
    if env.configured = false then (503, store)
    else
      match findDoc docId with
      | none => (404, store)
      | some document =>
        if document.userId ≠ userId then (404, store)
        else if document.status ≠ "processed" then (400, store)
        else if (jsTrim document.extractedText).length = 0 then (400, store)
        else
          match generateSingleSummary env document.extractedText
              { model := reqModel.getD env.defaultModel, maxTokens := 2000 } with
          | (Except.error _, _) => (500, store)
          | (Except.ok result, _) =>
            (201,
             store ++ [{ content := result.summary, type := "single", model := result.model,
                         tokensUsed := result.tokensUsed, method := result.method }])

/-- Every call in `log` succeeds under `env`'s Model Invoker. -/
def callsOk (env : Env) (log : List ModelCall) : Prop :=
  ∀ c ∈ log, isOkE (env.invoke c.prompt c.maxTokens) = true

/-- The empty-input guard of `estimateTokens` is redundant: the function
always computes `ceilDiv4` of the length. -/
theorem estimateTokens_eq (s : String) : estimateTokens s = ceilDiv4 s.length := by
  rw [estimateTokens]
  by_cases h : s = ""
  · subst h
    rfl
  · rw [if_neg h]

/-- The head of `dropWhile p` never satisfies `p`. -/
theorem head?_dropWhile_false (p : Char → Bool) :
    ∀ (l : List Char) (c : Char), (l.dropWhile p).head? = some c → p c = false := by
  intro l
  induction l with
  | nil =>
    intro c h
    simp [List.dropWhile_nil] at h
  | cons a l ih =>
    intro c h
    rw [List.dropWhile_cons] at h
    by_cases hpa : p a = true
    · rw [if_pos hpa] at h
      exact ih c h
    · rw [if_neg hpa] at h
      simp only [List.head?_cons, Option.some.injEq] at h
      subst h
      simpa using hpa

/-- `dropWhile` keeps the last element when its result is non-empty. -/
theorem getLast?_dropWhile_ne_nil (p : Char → Bool) :
    ∀ l : List Char, l.dropWhile p ≠ [] → (l.dropWhile p).getLast? = l.getLast? := by
  intro l
  induction l with
  | nil =>
    intro h
    rfl
  | cons a l ih =>
    intro h
    rw [List.dropWhile_cons] at h ⊢
    by_cases hpa : p a = true
    · rw [if_pos hpa] at h ⊢
      rw [ih h]
      cases l with
      | nil =>
        exact absurd (by simp [List.dropWhile_nil]) h
      | cons b m =>
        rw [List.getLast?_cons_cons]
    · rw [if_neg hpa]

/-- The first character of a trimmed list is never whitespace. -/
theorem jsTrimList_head (l : List Char) (c : Char) :
    (jsTrimList l).head? = some c → isJsWs c = false := by
  intro h
  rw [jsTrimList, List.head?_reverse] at h
  have hne : (l.dropWhile isJsWs).reverse.dropWhile isJsWs ≠ [] := by
    intro h0
    rw [h0] at h
    simp at h
  rw [getLast?_dropWhile_ne_nil _ _ hne, List.getLast?_reverse] at h
  exact head?_dropWhile_false isJsWs _ c h

/-- The last character of a trimmed list is never whitespace. -/
theorem jsTrimList_last (l : List Char) (c : Char) :
    (jsTrimList l).getLast? = some c → isJsWs c = false := by
  intro h
  rw [jsTrimList, List.getLast?_reverse] at h
  exact head?_dropWhile_false isJsWs _ c h

/-- Stub environment whose Model Invoker always answers `"resumo"` and whose
splitter returns the whole text as a single chunk. -/
def wEnvOk : Env :=
  { configured := true
    defaultModel := "gpt-3.5-turbo"
    invoke := fun _ _ => Except.ok "resumo"
    splitText := fun _ _ t => [t] }

/-- Stub environment with the model backend credential unset. -/
def wEnvOff : Env :=
  { configured := false
    defaultModel := "gpt-3.5-turbo"
    invoke := fun _ _ => Except.ok "resumo"
    splitText := fun _ _ t => [t] }

/-- Stub environment whose Model Invoker always fails. -/
def wEnvFail : Env :=
  { configured := true
    defaultModel := "gpt-3.5-turbo"
    invoke := fun _ _ => Except.error "rate limit"
    splitText := fun _ _ t => [t] }

theorem callsOk_nil (env : Env) : callsOk env [] := by
  intro c hc
  simp at hc

theorem callsOk_append (env : Env) (l1 l2 : List ModelCall)
    (h1 : callsOk env l1) (h2 : callsOk env l2) : callsOk env (l1 ++ l2) := by
  intro c hc
  rcases List.mem_append.mp hc with h | h
  · exact h1 c h
  · exact h2 c h

theorem callsOk_singleton (env : Env) (c : ModelCall)
    (h : isOkE (env.invoke c.prompt c.maxTokens) = true) : callsOk env [c] := by
  intro d hd
  simp at hd
  subst hd
  exact h

/-- A successful map step only records successful calls. -/
theorem mapStep_callsOk (env : Env) (opts : SumOptions) :
    ∀ (chunks : List String) (ss : List String) (log : List ModelCall),
      mapStep env opts chunks = (Except.ok ss, log) → callsOk env log := by
  intro chunks
  induction chunks with
  | nil =>
    intro ss log h
    simp only [mapStep, Prod.mk.injEq] at h
    rw [← h.2]
    exact callsOk_nil env
  | cons ch rest ih =>
    intro ss log h
    simp only [mapStep] at h
    cases hinv : env.invoke (mapPromptOf ch) opts.maxTokens with
    | error e =>
      rw [hinv] at h
      simp at h
    | ok s =>
      rw [hinv] at h
      rcases hms : mapStep env opts rest with ⟨res2, log2⟩
      rw [hms] at h
      cases res2 with
      | error e =>
        simp at h
      | ok ss2 =>
        simp only [Prod.mk.injEq] at h
        rw [← h.2]
        refine callsOk_append env _ _ (callsOk_singleton env _ ?_) (ih ss2 log2 hms)
        rw [hinv]
        rfl

/-- A successful map-reduce chain invocation only records successful calls. -/
theorem mapReduceChainInvoke_callsOk (env : Env) (opts : SumOptions)
    (chunks : List String) (final : String) (log : List ModelCall)
    (h : mapReduceChainInvoke env opts chunks = (Except.ok final, log)) : callsOk env log := by
  simp only [mapReduceChainInvoke] at h
  split at h
  · simp at h
  · rename_i summaries log1 hms
    split at h
    · simp at h
    · rename_i f hinv
      simp only [Prod.mk.injEq] at h
      rw [← h.2]
      refine callsOk_append env _ _ (mapStep_callsOk env opts chunks summaries log1 hms)
        (callsOk_singleton env _ ?_)
      rw [hinv]
      rfl

/-- A successful map-reduce strategy execution only records successful calls. -/
theorem generateMapReduceSummary_callsOk (env : Env) (text : String) (opts : SumOptions)
    (r : SummaryResult) (log : List ModelCall)
    (h : generateMapReduceSummary env text opts = (Except.ok r, log)) : callsOk env log := by
  simp only [generateMapReduceSummary] at h
  rcases hc : mapReduceChainInvoke env opts (env.splitText 4000 200 text) with ⟨res, lg⟩
  rw [hc] at h
  cases res with
  | error e =>
    simp at h
  | ok f =>
    simp only [Prod.mk.injEq] at h
    rw [← h.2]
    exact mapReduceChainInvoke_callsOk env opts _ f lg hc

/-- A successful map-reduce strategy execution returns method `map_reduce`. -/
theorem generateMapReduceSummary_method (env : Env) (text : String) (opts : SumOptions)
    (r : SummaryResult) (log : List ModelCall)
    (h : generateMapReduceSummary env text opts = (Except.ok r, log)) :
    r.method = "map_reduce" := by
  simp only [generateMapReduceSummary] at h
  rcases hc : mapReduceChainInvoke env opts (env.splitText 4000 200 text) with ⟨res, lg⟩
  rw [hc] at h
  cases res with
  | error e =>
    simp at h
  | ok f =>
    simp only [Prod.mk.injEq, Except.ok.injEq] at h
    rw [← h.1]

/-- A successful `generateSingleSummary` only records successful calls. -/
theorem generateSingleSummary_callsOk (env : Env) (text : String) (opts : SumOptions)
    (r : SummaryResult) (log : List ModelCall)
    (h : generateSingleSummary env text opts = (Except.ok r, log)) : callsOk env log := by
  simp only [generateSingleSummary] at h
  by_cases hconf : env.configured = false
  · rw [if_pos hconf] at h
    simp at h
  · rw [if_neg hconf] at h
    by_cases hbig : 12000 < ceilDiv4 text.length
    · rw [if_pos hbig] at h
      rcases hmr : generateMapReduceSummary env text opts with ⟨res, lg⟩
      rw [hmr] at h
      cases res with
      | error e =>
        simp at h
      | ok r0 =>
        simp only [Prod.mk.injEq] at h
        rw [← h.2]
        exact generateMapReduceSummary_callsOk env text opts r0 lg hmr
    · rw [if_neg hbig] at h
      cases hinv : env.invoke (singlePromptOf text) opts.maxTokens with
      | error e =>
        rw [hinv] at h
        simp at h
      | ok s =>
        rw [hinv] at h
        simp only [Prod.mk.injEq] at h
        rw [← h.2]
        refine callsOk_singleton env _ ?_
        rw [hinv]
        rfl

/-- A successful per-document loop only records successful calls. -/
theorem summarizeEach_callsOk (env : Env) (opts : SumOptions) :
    ∀ (docs : List NamedDoc) (indiv : List IndividualSummary) (log : List ModelCall),
      summarizeEach env opts docs = (Except.ok indiv, log) → callsOk env log := by
  intro docs
  induction docs with
  | nil =>
    intro indiv log h
    simp only [summarizeEach, Prod.mk.injEq] at h
    rw [← h.2]
    exact callsOk_nil env
  | cons d ds ih =>
    intro indiv log h
    simp only [summarizeEach] at h
    rcases hs : generateSingleSummary env d.text { model := opts.model, maxTokens := 1000 } with ⟨res, lg⟩
    rw [hs] at h
    cases res with
    | error e =>
      simp at h
    | ok r =>
      rcases hrest : summarizeEach env opts ds with ⟨res2, lg2⟩
      rw [hrest] at h
      cases res2 with
      | error e =>
        simp at h
      | ok rest =>
        simp only [Prod.mk.injEq] at h
        rw [← h.2]
        exact callsOk_append env _ _ (generateSingleSummary_callsOk env d.text _ r lg hs)
          (ih rest lg2 hrest)

/-- A successful hierarchical strategy execution only records successful
calls. -/
theorem generateHierarchicalSummary_callsOk (env : Env) (docs : List NamedDoc)
    (opts : SumOptions) (r : SummaryResult) (log : List ModelCall)
    (h : generateHierarchicalSummary env docs opts = (Except.ok r, log)) : callsOk env log := by
  simp only [generateHierarchicalSummary] at h
  split at h
  · simp at h
  · rename_i indiv lg he
    split at h
    · simp at h
    · rename_i f hinv
      simp only [Prod.mk.injEq] at h
      rw [← h.2]
      refine callsOk_append env _ _ (summarizeEach_callsOk env opts docs indiv lg he)
        (callsOk_singleton env _ ?_)
      rw [hinv]
      rfl

/-- When every per-document summarization succeeds with result `p.1` and call
log `p.2`, the sequential loop returns the individual summaries in caller
order and the concatenation of the per-document call logs. -/
theorem summarizeEach_of_forall₂ (env : Env) (opts : SumOptions) :
    ∀ (docs : List NamedDoc) (results : List (SummaryResult × List ModelCall)),
      List.Forall₂
        (fun d p => generateSingleSummary env d.text { model := opts.model, maxTokens := 1000 } =
          (Except.ok p.1, p.2)) docs results →
      summarizeEach env opts docs =
        (Except.ok (List.zipWith (fun d p => ⟨d.name, p.summary⟩) docs (results.map Prod.fst)),
         (results.map Prod.snd).flatten) := by
  intro docs results h
  induction h with
  | nil => rfl
  | @cons d p ds ps hd htl ih =>
    have hstep : summarizeEach env opts (d :: ds) =
        match generateSingleSummary env d.text { model := opts.model, maxTokens := 1000 } with
        | (Except.error e, log) => (Except.error e, log)
        | (Except.ok r, log) =>
          match summarizeEach env opts ds with
          | (Except.error e, log2) => (Except.error e, log ++ log2)
          | (Except.ok rest, log2) => (Except.ok (⟨d.name, r.summary⟩ :: rest), log ++ log2) := rfl
    rw [hstep, hd, ih]
    rfl

/-- The controller never writes a partial record: either the store is
untouched, or the strategy completed successfully and exactly its result was
appended. -/
theorem createSingleSummaryController_persist (env : Env) (userId : String)
    (documentId : Option String) (reqModel : Option String)
    (findDoc : String → Option DocRecord) (store : List PersistedSummary)
    (st : Nat) (ps : List PersistedSummary)
    (h : createSingleSummaryController env userId documentId reqModel findDoc store = (st, ps)) :
    ps = store ∨
    (st = 201 ∧ ∃ docId d r log,
      documentId = some docId ∧ findDoc docId = some d ∧
      generateSingleSummary env d.extractedText
        { model := reqModel.getD env.defaultModel, maxTokens := 2000 } = (Except.ok r, log) ∧
      ps = store ++ [{ content := r.summary, type := "single", model := r.model,
                       tokensUsed := r.tokensUsed, method := r.method }]) := by
  simp only [createSingleSummaryController] at h
  split at h
  · injection h with h1 h2
    exact Or.inl h2.symm
  · rename_i docId
    split at h
    · injection h with h1 h2
      exact Or.inl h2.symm
    · split at h
      · injection h with h1 h2
        exact Or.inl h2.symm
      · rename_i document hfind
        split at h
        · injection h with h1 h2
          exact Or.inl h2.symm
        · split at h
          · injection h with h1 h2
            exact Or.inl h2.symm
          · split at h
            · injection h with h1 h2
              exact Or.inl h2.symm
            · split at h
              · injection h with h1 h2
                exact Or.inl h2.symm
              · rename_i result lg hgen
                injection h with h1 h2
                exact Or.inr ⟨h1.symm, docId, document, result, lg, rfl, hfind, hgen, h2.symm⟩

/-- A successful hierarchical strategy execution returns method
`hierarchical`. -/
theorem generateHierarchicalSummary_method (env : Env) (docs : List NamedDoc)
    (opts : SumOptions) (r : SummaryResult) (log : List ModelCall)
    (h : generateHierarchicalSummary env docs opts = (Except.ok r, log)) :
    r.method = "hierarchical" := by
  simp only [generateHierarchicalSummary] at h
  split at h
  · simp at h
  · split at h
    · simp at h
    · simp only [Prod.mk.injEq, Except.ok.injEq] at h
      rw [← h.1]

/-- C8: for every text, `estimateTokens` computes exactly `ceil(length/4)`
(a natural number, hence non-negative), and `estimateTokens ""` is `0`; the
function is total and pure by construction. -/
theorem estimateTokens_spec :
    estimateTokens "" = 0 ∧
    ∀ text : String, (estimateTokens text : ℤ) = ⌈(text.length : ℚ) / 4⌉ := by
  refine ⟨rfl, fun text => ?_⟩
  have h1 : text.length ≤ 4 * ((text.length + 3) / 4) := by omega
  have h2 : 4 * ((text.length + 3) / 4) ≤ text.length + 3 := by omega
  have h1q : (text.length : ℚ) ≤ 4 * (((text.length + 3) / 4 : ℕ) : ℚ) := by exact_mod_cast h1
  have h2q : (4 * (((text.length + 3) / 4 : ℕ) : ℚ)) ≤ (text.length : ℚ) + 3 := by exact_mod_cast h2
  simp only [estimateTokens_eq, ceilDiv4]
  symm
  rw [Int.ceil_eq_iff]
  constructor
  · rw [lt_div_iff₀ (by norm_num : (0 : ℚ) < 4)]
    simp only [Int.cast_natCast]
    linarith
  · rw [div_le_iff₀ (by norm_num : (0 : ℚ) < 4)]
    simp only [Int.cast_natCast]
    linarith

/-- C1: with the backend configured, `generateSingleSummary` routes a text
whose token estimate is at most 12000 through the single-pass executor —
one Model Invoker call whose prompt is the single-document template with the
full text embedded, result method `"stuff"` — and a text whose estimate
exceeds 12000 through the map-reduce executor, whose successful result has
method `"map_reduce"`. -/
theorem generateSingleSummary_routing (env : Env) (text : String) (opts : SumOptions)
    (hconf : env.configured = true) :
    (estimateTokens text ≤ 12000 →
      ∀ out, env.invoke (singlePromptOf text) opts.maxTokens = Except.ok out →
        generateSingleSummary env text opts =
          (Except.ok { summary := jsTrim out,
                       tokensUsed := estimateTokens text + estimateTokens out,
                       model := opts.model, method := "stuff" },
           [⟨singlePromptOf text, opts.maxTokens⟩]) ∧
        singlePromptOf text = singleSystem ++ "\n\n" ++ singleHumanPre ++ text ++ singleHumanPost) ∧
    (12000 < estimateTokens text →
      ∀ r, (generateSingleSummary env text opts).fst = Except.ok r → r.method = "map_reduce") := by
  have hnf : ¬ env.configured = false := by simp [hconf]
  constructor
  · intro hle out hout
    refine ⟨?_, rfl⟩
    rw [estimateTokens_eq] at hle
    simp only [generateSingleSummary, estimateTokens_eq]
    rw [if_neg hnf, if_neg (Nat.not_lt.mpr hle), hout]
  · intro hgt r hr
    rw [estimateTokens_eq] at hgt
    simp only [generateSingleSummary] at hr
    rw [if_neg hnf, if_pos hgt] at hr
    rcases hmr : generateMapReduceSummary env text opts with ⟨res, lg⟩
    rw [hmr] at hr
    cases res with
    | error e =>
      simp at hr
    | ok r0 =>
      simp at hr
      rw [← hr]
      exact generateMapReduceSummary_method env text opts r0 lg hmr

set_option maxRecDepth 8000 in
/-- Witness for C1: the stub environment, a 3-character text and its
single-pass result. -/
theorem generateSingleSummary_routing_witness :
    wEnvOk.configured = true ∧ estimateTokens "abc" ≤ 12000 ∧
    generateSingleSummary wEnvOk "abc" ⟨"m", 2000⟩ =
      (Except.ok { summary := "resumo", tokensUsed := 3, model := "m", method := "stuff" },
       [⟨singlePromptOf "abc", 2000⟩]) :=
  ⟨rfl, by decide,
    ((generateSingleSummary_routing wEnvOk "abc" ⟨"m", 2000⟩ rfl).1 (by decide) "resumo" rfl).1⟩

/-- C2: with the backend configured and at least two documents,
`generateMultipleSummary` concatenates the labeled document texts, estimates
`ceil(length/4)` of the concatenation, and routes an estimate over 12000 to
the hierarchical executor (successful result method `"hierarchical"`), and
otherwise makes exactly one Model Invoker call with the combined labeled text
in the multi-document template, returning method `"stuff"`. -/
theorem generateMultipleSummary_routing (env : Env) (docs : List NamedDoc) (opts : SumOptions)
    (hconf : env.configured = true) (hlen : 2 ≤ docs.length) :
    (estimateTokens (documentsText docs) ≤ 12000 →
      ∀ out, env.invoke (multiplePromptOf docs.length (documentsText docs)) opts.maxTokens =
          Except.ok out →
        generateMultipleSummary env docs opts =
          (Except.ok { summary := jsTrim out,
                       tokensUsed := estimateTokens (documentsText docs) + estimateTokens out,
                       model := opts.model, method := "stuff",
                       documentsCount := some docs.length },
           [⟨multiplePromptOf docs.length (documentsText docs), opts.maxTokens⟩])) ∧
    (12000 < estimateTokens (documentsText docs) →
      ∀ r, (generateMultipleSummary env docs opts).fst = Except.ok r →
        r.method = "hierarchical") := by
  have hnf : ¬ env.configured = false := by simp [hconf]
  have hne : ¬ docs.length = 0 := by omega
  constructor
  · intro hle out hout
    rw [estimateTokens_eq] at hle
    simp only [generateMultipleSummary, estimateTokens_eq]
    rw [if_neg hnf, if_neg hne, if_neg (Nat.not_lt.mpr hle), hout]
  · intro hgt r hr
    rw [estimateTokens_eq] at hgt
    simp only [generateMultipleSummary] at hr
    rw [if_neg hnf, if_neg hne, if_pos hgt] at hr
    rcases hh : generateHierarchicalSummary env docs opts with ⟨res, lg⟩
    rw [hh] at hr
    cases res with
    | error e =>
      simp at hr
    | ok r0 =>
      simp at hr
      rw [← hr]
      exact generateHierarchicalSummary_method env docs opts r0 lg hh

set_option maxRecDepth 8000 in
/-- Witness for C2: two short documents combine to an estimate of 13 tokens,
well under the threshold, and yield the single-pass multi-document record. -/
theorem generateMultipleSummary_routing_witness :
    wEnvOk.configured = true ∧ 2 ≤ ([⟨"a", "x"⟩, ⟨"b", "y"⟩] : List NamedDoc).length ∧
    estimateTokens (documentsText [⟨"a", "x"⟩, ⟨"b", "y"⟩]) ≤ 12000 ∧
    generateMultipleSummary wEnvOk [⟨"a", "x"⟩, ⟨"b", "y"⟩] ⟨"m", 3000⟩ =
      (Except.ok { summary := "resumo", tokensUsed := 15, model := "m", method := "stuff",
                   documentsCount := some 2 },
       [⟨multiplePromptOf 2 (documentsText [⟨"a", "x"⟩, ⟨"b", "y"⟩]), 3000⟩]) :=
  ⟨rfl, by decide, by decide,
    (generateMultipleSummary_routing wEnvOk [⟨"a", "x"⟩, ⟨"b", "y"⟩] ⟨"m", 3000⟩ rfl
      (by decide)).1 (by decide) "resumo" rfl⟩

set_option maxRecDepth 8000 in
/-- C3 counterexample: a list with exactly one document is not rejected —
`generateMultipleSummary` succeeds on it and makes a Model Invoker call. -/
theorem generateMultipleSummary_singleton_not_rejected :
    isOkE (generateMultipleSummary wEnvOk [⟨"doc1", "texto"⟩] ⟨"gpt-3.5-turbo", 3000⟩).fst = true ∧
    (generateMultipleSummary wEnvOk [⟨"doc1", "texto"⟩] ⟨"gpt-3.5-turbo", 3000⟩).snd.length = 1 :=
  ⟨rfl, rfl⟩

/-- C3 amended: `generateMultipleSummary` rejects only a null/empty document
list — it fails without any Model Invoker call, and when the backend is
configured the error is `No documents provided`; the two-document minimum is
enforced by the HTTP controller, not here. -/
theorem generateMultipleSummary_rejects_only_empty (env : Env) (opts : SumOptions) :
    isOkE (generateMultipleSummary env [] opts).fst = false ∧
    (generateMultipleSummary env [] opts).snd = [] ∧
    (env.configured = true →
      generateMultipleSummary env [] opts = (Except.error "No documents provided", [])) := by
  cases hb : env.configured with
  | false =>
    have h0 : generateMultipleSummary env [] opts =
        (Except.error "OpenAI API key is not configured", []) := by
      simp only [generateMultipleSummary]
      rw [if_pos hb]
    rw [h0]
    exact ⟨rfl, rfl, fun htrue => absurd htrue (by simp [hb])⟩
  | true =>
    have hnf : ¬ env.configured = false := by simp [hb]
    have h0 : generateMultipleSummary env [] opts = (Except.error "No documents provided", []) := by
      simp only [generateMultipleSummary]
      rw [if_neg hnf, if_pos (show ([] : List NamedDoc).length = 0 from rfl)]
    rw [h0]
    exact ⟨rfl, rfl, fun _ => rfl⟩

/-- Witness for the amended C3 at the configured stub environment. -/
theorem generateMultipleSummary_rejects_only_empty_witness :
    wEnvOk.configured = true ∧
    generateMultipleSummary wEnvOk [] ⟨"m", 3000⟩ = (Except.error "No documents provided", []) :=
  ⟨rfl, (generateMultipleSummary_rejects_only_empty wEnvOk ⟨"m", 3000⟩).2.2 rfl⟩

/-- C4: when every per-document summarization (run via `generateSingleSummary`
with the output cap reduced to 1000, in caller order) succeeds and the final
combine invocation succeeds, the hierarchical executor returns method
`"hierarchical"`, a document count equal to the number of input documents,
`tokensUsed` equal to the token estimate of the labeled concatenation of the
individual summaries plus the token estimate of the final summary, and a call
log consisting of the per-document calls in order followed by exactly one
combine call. -/
theorem generateHierarchicalSummary_spec (env : Env) (docs : List NamedDoc) (opts : SumOptions)
    (results : List (SummaryResult × List ModelCall))
    (hres : List.Forall₂
      (fun d p => generateSingleSummary env d.text { model := opts.model, maxTokens := 1000 } =
        (Except.ok p.1, p.2)) docs results)
    (final : String)
    (hfinal : env.invoke
        (combinePromptOf docs.length
          (combinedSummariesText
            (List.zipWith (fun d p => ⟨d.name, p.summary⟩) docs (results.map Prod.fst))))
        opts.maxTokens = Except.ok final) :
    generateHierarchicalSummary env docs opts =
      (Except.ok
        { summary := jsTrim final,
          tokensUsed :=
            estimateTokens
              (combinedSummariesText
                (List.zipWith (fun d p => ⟨d.name, p.summary⟩) docs (results.map Prod.fst)))
              + estimateTokens final,
          model := opts.model,
          method := "hierarchical",
          documentsCount := some docs.length },
       (results.map Prod.snd).flatten ++
         [⟨combinePromptOf docs.length
             (combinedSummariesText
               (List.zipWith (fun d p => ⟨d.name, p.summary⟩) docs (results.map Prod.fst))),
           opts.maxTokens⟩]) := by
  have he := summarizeEach_of_forall₂ env opts docs results hres
  have h1 : generateHierarchicalSummary env docs opts =
      match env.invoke
          (combinePromptOf docs.length
            (combinedSummariesText
              (List.zipWith (fun d p => ⟨d.name, p.summary⟩) docs (results.map Prod.fst))))
          opts.maxTokens with
      | Except.error e =>
        (Except.error e,
         (results.map Prod.snd).flatten ++
           [⟨combinePromptOf docs.length
               (combinedSummariesText
                 (List.zipWith (fun d p => ⟨d.name, p.summary⟩) docs (results.map Prod.fst))),
             opts.maxTokens⟩])
      | Except.ok finalSummary =>
        (Except.ok
          { summary := jsTrim finalSummary,
            tokensUsed :=
              ceilDiv4
                (combinedSummariesText
                  (List.zipWith (fun d p => ⟨d.name, p.summary⟩) docs (results.map Prod.fst))).length
                + ceilDiv4 finalSummary.length,
            model := opts.model,
            method := "hierarchical",
            documentsCount := some docs.length },
         (results.map Prod.snd).flatten ++
           [⟨combinePromptOf docs.length
               (combinedSummariesText
                 (List.zipWith (fun d p => ⟨d.name, p.summary⟩) docs (results.map Prod.fst))),
             opts.maxTokens⟩]) := by
    simp only [generateHierarchicalSummary]
    rw [he]
  rw [h1, hfinal]
  simp only [estimateTokens_eq]

set_option maxRecDepth 9000 in
/-- Witness for C4: two one-character documents, each summarized with the
reduced cap, followed by one combine call; three calls in total. -/
theorem generateHierarchicalSummary_spec_witness :
    (generateHierarchicalSummary wEnvOk [⟨"a", "x"⟩, ⟨"b", "y"⟩] ⟨"m", 2000⟩).snd.length = 3 ∧
    (generateHierarchicalSummary wEnvOk [⟨"a", "x"⟩, ⟨"b", "y"⟩] ⟨"m", 2000⟩).fst =
      Except.ok { summary := "resumo", tokensUsed := 22, model := "m", method := "hierarchical",
                  documentsCount := some 2 } := by
  rw [generateHierarchicalSummary_spec wEnvOk [⟨"a", "x"⟩, ⟨"b", "y"⟩] ⟨"m", 2000⟩
    [({ summary := "resumo", tokensUsed := 3, model := "m", method := "stuff" },
      [⟨singlePromptOf "x", 1000⟩]),
     ({ summary := "resumo", tokensUsed := 3, model := "m", method := "stuff" },
      [⟨singlePromptOf "y", 1000⟩])]
    (List.Forall₂.cons rfl (List.Forall₂.cons rfl List.Forall₂.nil)) "resumo" rfl]
  exact ⟨rfl, rfl⟩

/-- C5: when the map-reduce chain over the chunks obtained by splitting the
text with chunk size 4000 and overlap 200 succeeds, the map-reduce executor
returns method `"map_reduce"`, a chunk count equal to the number of those
chunks, `tokensUsed` equal to the token estimate of the original text plus
the token estimate of the final summary, and the final summary trimmed of
leading and trailing whitespace as content. -/
theorem generateMapReduceSummary_record (env : Env) (text : String) (opts : SumOptions)
    (final : String) (log : List ModelCall)
    (h : mapReduceChainInvoke env opts (env.splitText 4000 200 text) = (Except.ok final, log)) :
    generateMapReduceSummary env text opts =
      (Except.ok
        { summary := jsTrim final,
          tokensUsed := estimateTokens text + estimateTokens final,
          model := opts.model,
          method := "map_reduce",
          chunks := some (env.splitText 4000 200 text).length }, log) := by
  simp only [generateMapReduceSummary, estimateTokens_eq]
  rw [h]

set_option maxRecDepth 8000 in
/-- Witness for C5: a one-chunk text, one map call and one reduce call. -/
theorem generateMapReduceSummary_record_witness :
    generateMapReduceSummary wEnvOk "t" ⟨"m", 2000⟩ =
      (Except.ok { summary := "resumo", tokensUsed := 3, model := "m", method := "map_reduce",
                   chunks := some 1 },
       [⟨mapPromptOf "t", 2000⟩, ⟨reduceCombineOf "resumo", 2000⟩]) :=
  generateMapReduceSummary_record wEnvOk "t" ⟨"m", 2000⟩ "resumo"
    [⟨mapPromptOf "t", 2000⟩, ⟨reduceCombineOf "resumo", 2000⟩] rfl

/-- C6: a successful multi-call strategy (map-reduce or hierarchical) only
ever records successful Model Invoker calls — so if any single call fails the
strategy does not return a result — and the controller persists a summary
record only when `generateSingleSummary` completed successfully, appending
exactly that result; on any failure the record store is untouched. -/
theorem multiCallStrategy_aborts_on_failure (env : Env) (docs : List NamedDoc)
    (opts : SumOptions) (text : String) (userId : String) (documentId : Option String)
    (reqModel : Option String) (findDoc : String → Option DocRecord)
    (store : List PersistedSummary) :
    (∀ r log, generateHierarchicalSummary env docs opts = (Except.ok r, log) → callsOk env log) ∧
    (∀ r log, generateMapReduceSummary env text opts = (Except.ok r, log) → callsOk env log) ∧
    (∀ st ps, createSingleSummaryController env userId documentId reqModel findDoc store = (st, ps) →
      ps = store ∨
      (st = 201 ∧ ∃ docId d r log,
        documentId = some docId ∧ findDoc docId = some d ∧
        generateSingleSummary env d.extractedText
          { model := reqModel.getD env.defaultModel, maxTokens := 2000 } = (Except.ok r, log) ∧
        ps = store ++ [{ content := r.summary, type := "single", model := r.model,
                         tokensUsed := r.tokensUsed, method := r.method }])) :=
  ⟨fun r log h => generateHierarchicalSummary_callsOk env docs opts r log h,
   fun r log h => generateMapReduceSummary_callsOk env text opts r log h,
   fun st ps h => createSingleSummaryController_persist env userId documentId reqModel
     findDoc store st ps h⟩

set_option maxRecDepth 9000 in
/-- Witness for C6: with the all-failing stub environment the controller
leaves the store untouched, and with the all-succeeding one every hierarchical
call in the log succeeded. -/
theorem multiCallStrategy_aborts_on_failure_witness :
    callsOk wEnvOk (generateHierarchicalSummary wEnvOk [⟨"a", "x"⟩, ⟨"b", "y"⟩] ⟨"m", 2000⟩).snd ∧
    ([] : List PersistedSummary) = [] ∨
      (500 = 201 ∧ ∃ docId d r log,
        (some "d" : Option String) = some docId ∧
        (fun _ : String => some (⟨"u", "processed", "texto", "orig"⟩ : DocRecord)) docId = some d ∧
        generateSingleSummary wEnvFail d.extractedText
          { model := (none : Option String).getD wEnvFail.defaultModel, maxTokens := 2000 } =
            (Except.ok r, log) ∧
        ([] : List PersistedSummary) =
          [] ++ [{ content := r.summary, type := "single", model := r.model,
                   tokensUsed := r.tokensUsed, method := r.method }]) :=
  Or.inl
    ⟨(multiCallStrategy_aborts_on_failure wEnvOk [⟨"a", "x"⟩, ⟨"b", "y"⟩] ⟨"m", 2000⟩ "" ""
        none none (fun _ => none) []).1 _ _ rfl,
     ((multiCallStrategy_aborts_on_failure wEnvFail [] ⟨"m", 2000⟩ "" "u" (some "d")
        none (fun _ => some ⟨"u", "processed", "texto", "orig"⟩) []).2.2 500 [] rfl).resolve_right
       (fun hc => by exact absurd hc.1 (by decide))⟩

/-- C7: with the backend credential unconfigured, both entry points fail with
the configuration error before making any Model Invoker call. -/
theorem unconfigured_fails_without_call (env : Env) (text : String) (docs : List NamedDoc)
    (o1 o2 : SumOptions) (h : env.configured = false) :
    generateSingleSummary env text o1 = (Except.error "OpenAI API key is not configured", []) ∧
    generateMultipleSummary env docs o2 = (Except.error "OpenAI API key is not configured", []) := by
  constructor
  · simp only [generateSingleSummary]
    rw [if_pos h]
  · simp only [generateMultipleSummary]
    rw [if_pos h]

/-- Witness for C7 at the unconfigured stub environment. -/
theorem unconfigured_fails_without_call_witness :
    wEnvOff.configured = false ∧
    generateSingleSummary wEnvOff "abc" ⟨"m", 2000⟩ =
      (Except.error "OpenAI API key is not configured", []) ∧
    generateMultipleSummary wEnvOff [⟨"a", "x"⟩, ⟨"b", "y"⟩] ⟨"m", 3000⟩ =
      (Except.error "OpenAI API key is not configured", []) :=
  ⟨rfl,
    (unconfigured_fails_without_call wEnvOff "abc" [⟨"a", "x"⟩, ⟨"b", "y"⟩]
      ⟨"m", 2000⟩ ⟨"m", 3000⟩ rfl).1,
    (unconfigured_fails_without_call wEnvOff "abc" [⟨"a", "x"⟩, ⟨"b", "y"⟩]
      ⟨"m", 2000⟩ ⟨"m", 3000⟩ rfl).2⟩

/-- C9: `testConnection` is total at its interface — it always returns a
record with a Boolean success flag. An unset credential yields a failure
record without any Model Invoker call, an upstream error is caught into a
failure record carrying its message, and a success yields `success := true`
with a response preview of at most 50 characters. -/
theorem testConnection_spec (env : Env) :
    (env.configured = false →
      testConnection env = ({ success := false, error := some "API key not configured" }, [])) ∧
    (env.configured = true →
      (∀ e, env.invoke "Hello" 10 = Except.error e →
        testConnection env = ({ success := false, error := some e }, [⟨"Hello", 10⟩])) ∧
      (∀ out, env.invoke "Hello" 10 = Except.ok out →
        testConnection env =
          ({ success := true, model := some env.defaultModel,
             response := some (jsSubstringTo out 50) }, [⟨"Hello", 10⟩]) ∧
        (jsSubstringTo out 50).length ≤ 50)) := by
  constructor
  · intro h
    simp only [testConnection]
    rw [if_pos h]
  · intro h
    have hnf : ¬ env.configured = false := by simp [h]
    constructor
    · intro e he
      simp only [testConnection]
      rw [if_neg hnf, he]
    · intro out hout
      constructor
      · simp only [testConnection]
        rw [if_neg hnf, hout]
      · have hlen : (jsSubstringTo out 50).length = (out.data.take 50).length := rfl
        rw [hlen, List.length_take]
        exact Nat.min_le_left _ _

/-- Witness for C9: the unconfigured environment yields the no-call failure
record, and the all-succeeding environment yields a preview of length 6. -/
theorem testConnection_spec_witness :
    testConnection wEnvOff = ({ success := false, error := some "API key not configured" }, []) ∧
    testConnection wEnvOk =
      ({ success := true, model := some "gpt-3.5-turbo", response := some "resumo" },
       [⟨"Hello", 10⟩]) :=
  ⟨(testConnection_spec wEnvOff).1 rfl,
   ((testConnection_spec wEnvOk).2 rfl).2 "resumo" rfl |>.1⟩

/-- C10 counterexample: `cleanText` is not idempotent and its output can
contain three consecutive newlines.  On `"a\n \n \nb"` the space-only lines
are trimmed only after the newline squeeze, producing `"a\n\n\nb"`, which a
second application collapses further. -/
theorem cleanText_not_idempotent :
    cleanText "a\n \n \nb" = "a\n\n\nb" ∧
    cleanText (cleanText "a\n \n \nb") ≠ cleanText "a\n \n \nb" := by
  constructor
  · decide
  · decide

/-- C10 amended: `cleanText` of a null/empty input is the empty string, and
its output never has leading or trailing whitespace; idempotence and the
bound of two consecutive newlines do not hold. -/
theorem cleanText_amended :
    cleanText "" = "" ∧
    ∀ (s : String) (c : Char),
      ((cleanText s).data.head? = some c → isJsWs c = false) ∧
      ((cleanText s).data.getLast? = some c → isJsWs c = false) := by
  refine ⟨rfl, fun s c => ⟨fun h => ?_, fun h => ?_⟩⟩
  · by_cases hs : s = ""
    · simp only [cleanText] at h
      rw [if_pos hs] at h
      simp at h
    · simp only [cleanText] at h
      rw [if_neg hs] at h
      exact jsTrimList_head _ c h
  · by_cases hs : s = ""
    · simp only [cleanText] at h
      rw [if_pos hs] at h
      simp at h
    · simp only [cleanText] at h
      rw [if_neg hs] at h
      exact jsTrimList_last _ c h

/-- Witness for the amended C10: the output of `cleanText " x "` starts with
the non-whitespace character `x`. -/
theorem cleanText_amended_witness :
    (cleanText " x ").data.head? = some 'x' ∧ isJsWs 'x' = false :=
  ⟨by decide, (cleanText_amended.2 " x " 'x').1 (by decide)⟩

end CompApp



